import Mathlib

/-!
A shallow embedding of the micromagnetic engine orchestration core
(`src/engine/engine.go`, package `engine`): the quantity/caching
abstraction, the field-assembly pipeline, mesh accessors and the
torque right-hand-side function driven by the ODE solver.

Modelling conventions:
* `float64` values are embedded as `ℚ` (exact arithmetic stand-in for
  the reals; none of the verified claims depend on rounding).
* `log.Fatal` is embedded as the `.error` case of `Except String`,
  carrying the fatal message; a function that cannot reach a
  `log.Fatal` is still typed in `Except` where its callers are, so
  that "raises a fatal error" is expressible uniformly.
* The opaque `cuda` numerical kernels are out of scope per the spec
  (§1, §6): they are fields of a `Kernels` record passed explicitly,
  each mapping the kernel's inputs to the new destination contents.
* The time-dependent user-input closures (`Msat()`, `J()`, ...) are
  embedded as their values at the tick under consideration, stored in
  the global state.
-/

set_option linter.unusedVariables false

namespace Engine

/-- A 3-component vector of `float64`, as Go's `[3]float64`
(`c0`, `c1`, `c2` are indices 0, 1, 2). -/
structure Vec3 where
  c0 : ℚ
  c1 : ℚ
  c2 : ℚ
deriving DecidableEq, Repr

/-- A 3-component vector of `int`, as Go's `[3]int`. -/
structure IVec3 where
  c0 : ℤ
  c1 : ℤ
  c2 : ℤ
deriving DecidableEq, Repr

/-- Reversal of the component order of a 3-vector,
`[v0,v1,v2] ↦ [v2,v1,v0]` — the axis swap the accessors perform. -/
def rev3 (v : Vec3) : Vec3 := ⟨v.c2, v.c1, v.c0⟩

/-- Reversal of the component order of an integer 3-vector. -/
def revI3 (v : IVec3) : IVec3 := ⟨v.c2, v.c1, v.c0⟩

/-- Componentwise scaling of a 3-vector (multiplication on the right,
as the source writes `j[2] * p`). -/
def scale3 (p : ℚ) (v : Vec3) : Vec3 := ⟨v.c0 * p, v.c1 * p, v.c2 * p⟩

/-- A device buffer holding one 3-vector per cell (`*data.Slice` with
3 components); the cell-major layout is irrelevant to the claims, so a
flat list of per-cell vectors suffices. -/
abbrev Buffer := List Vec3

/-- `cuda.Zero`: overwrite every element of the buffer with the zero
vector (contract: destination becomes the zero field). -/
def cudaZero (b : Buffer) : Buffer := b.map fun _ => ⟨0, 0, 0⟩

/-- Elementwise sum of two buffers (the "explicit zero-added
reference" of the spec's zero-skip property). -/
def addBuffer (dst src : Buffer) : Buffer :=
  List.zipWith (fun a b => Vec3.mk (a.c0 + b.c0) (a.c1 + b.c1) (a.c2 + b.c2)) dst src

/-- `data.Mesh` (repository package `data`, not under `src/`).
Modelled from the spec: internal storage keeps cell counts and cell
sizes in internal axis order (the internal order is `[Z,Y,X]` relative
to the user's axes); `Size`/`CellSize` return the stored triples and
`WorldSize` is cell count × cell size per internal axis. -/
structure Mesh where
  size : IVec3
  cellsize : Vec3
deriving DecidableEq, Repr

/-- `data.NewMesh(n0, n1, n2, c0, c1, c2)`: construct a mesh from
counts and sizes given in internal axis order. Modelled from the spec
(mesh construction contract, §6); construction itself performs no
validation visible in `src/`. -/
def NewMesh (n0 n1 n2 : ℤ) (c0 c1 c2 : ℚ) : Mesh :=
  ⟨⟨n0, n1, n2⟩, ⟨c0, c1, c2⟩⟩

/-- `Mesh.Size`: the internal-order cell counts. -/
def Mesh.Size (m : Mesh) : IVec3 := m.size

/-- `Mesh.CellSize`: the internal-order cell sizes. -/
def Mesh.CellSize (m : Mesh) : Vec3 := m.cellsize

/-- `Mesh.WorldSize`: per-axis product of cell count and cell size, in
internal order. Modelled from the spec: world size = cell count × cell
size per axis. -/
def Mesh.WorldSize (m : Mesh) : Vec3 :=
  ⟨(m.size.c0 : ℚ) * m.cellsize.c0,
   (m.size.c1 : ℚ) * m.cellsize.c1,
   (m.size.c2 : ℚ) * m.cellsize.c2⟩

/-- Number of cells of a mesh, used to size freshly allocated device
buffers. -/
def Mesh.cells (m : Mesh) : ℕ :=
  m.size.c0.toNat * m.size.c1.toNat * m.size.c2.toNat

/-- `cuda.NewSlice(3, mesh)` / a freshly allocated zeroed device
buffer sized against the mesh. -/
def newBuffer (m : Mesh) : Buffer :=
  List.replicate m.cells ⟨0, 0, 0⟩

/-- Modelled from the spec: a scalar Parameter is a region-indexed
lookup table of fixed small size (max-region-count); `GetRegion` reads
one region's value, `SetRegion` writes it. The optional `post_update`
hook the spec describes is wired at its single use site
(`Ku1SetRegion`, translated from `engine.go` lines 129–131). -/
abbrev ScalarParam := List ℚ

/-- Modelled from the spec: the fixed max-region-count sizing the
parameter tables (a small constant; its exact value is immaterial to
the claims). -/
def maxNRegions : ℕ := 256

/-- `ScalarParam.GetRegion`: region-indexed read. -/
def ScalarParam.GetRegion (p : ScalarParam) (r : ℕ) : ℚ := p.getD r 0

/-- `ScalarParam.SetRegion`: region-indexed write (the raw table
write; hooks are applied by the caller-side wrappers). -/
def ScalarParam.SetRegion (p : ScalarParam) (r : ℕ) (v : ℚ) : ScalarParam :=
  p.set r v

/-- `scalarParam(name, unit)`: a fresh all-zero table. -/
def scalarParam : ScalarParam := List.replicate maxNRegions 0

/-- Modelled from the spec: a vector Parameter (3 floats per region). -/
abbrev VectorParam := List Vec3

/-- `vectorParam(name, unit)`: a fresh all-zero table. -/
def vectorParam : VectorParam := List.replicate maxNRegions ⟨0, 0, 0⟩

/-- Modelled from the spec: the Sampling Table's per-tick lifecycle
state — `arm` records whether columns are wanted this tick, `touch`
appends one row when the tick is save-worthy. Column contents are
owned by external persistence collaborators and are out of scope. -/
structure DataTable where
  wanted : Bool
  rows : ℕ
deriving DecidableEq, Repr

/-- `newTable(name)`: fresh table, nothing armed, no rows. -/
def newTable : DataTable := ⟨false, 0⟩

/-- `Table.arm(cansave)`: mark whether columns want data this tick.
Modelled from the spec (§4.4). -/
def DataTable.arm (t : DataTable) (cansave : Bool) : DataTable :=
  { t with wanted := cansave }

/-- `Table.touch(cansave)`: sample — append one row iff the tick is
save-worthy. Modelled from the spec (§4.4). -/
def DataTable.touch (t : DataTable) (cansave : Bool) : DataTable :=
  if cansave then { t with rows := t.rows + 1 } else t

/-- The engine's package-level mutable state (`engine.go` `var`
blocks): user inputs (each time-dependent closure embedded as its
value at the current tick), the hidden globals, and the parameter
tables. -/
structure GlobalState where
  aex : ℚ
  msat : ℚ
  alpha : ℚ
  bExt : Vec3
  dmi : ℚ
  xi : ℚ
  spinPol : ℚ
  jvec : Vec3
  enableDemag : Bool
  ku1 : ScalarParam
  ku1_red : ScalarParam
  anisU : VectorParam
  regionsBuf : List ℕ
  mbuf : Buffer
  exchangeMask : Buffer
  extFields : List (Buffer × ℚ)
  globalmesh : Mesh
  itime : ℤ
  table : DataTable
  torquebuffer : Buffer
deriving DecidableEq, Repr

/-- The initial package state, from the `var` initializers in
`engine.go`: all material inputs `Const(0)` except `SpinPol = Const(1)`
and `EnableDemag = true`; the mesh is the zero value (unset). -/
def initState : GlobalState where
  aex := 0
  msat := 0
  alpha := 0
  bExt := ⟨0, 0, 0⟩
  dmi := 0
  xi := 0
  spinPol := 1
  jvec := ⟨0, 0, 0⟩
  enableDemag := true
  ku1 := scalarParam
  ku1_red := scalarParam
  anisU := vectorParam
  regionsBuf := []
  mbuf := []
  exchangeMask := []
  extFields := []
  globalmesh := ⟨⟨0, 0, 0⟩, ⟨0, 0, 0⟩⟩
  itime := 0
  table := newTable
  torquebuffer := []

/-- The external `cuda` numerical kernels (out of scope per the spec
§1 and §6: opaque numerical operations with input/output contracts).
Each field maps the kernel's inputs to the new contents of its
destination buffer; argument order follows the Go call sites. -/
structure Kernels where
  demagExec : Buffer → Buffer → ℚ → Buffer
  addExchange : Buffer → Buffer → Buffer → ℚ → ℚ → Buffer
  addDMI : Buffer → Buffer → ℚ → ℚ → Buffer
  addUniaxialAnisotropy : Buffer → Buffer → ScalarParam → VectorParam → List ℕ → Buffer
  addConst : Buffer → ℚ → ℚ → ℚ → Buffer
  madd2 : Buffer → Buffer → Buffer → ℚ → ℚ → Buffer
  llTorque : Buffer → Buffer → Buffer → ℚ → Buffer
  addZhangLiTorque : Buffer → Buffer → Vec3 → ℚ → ℚ → ℚ → Buffer

/-- A concrete kernel instantiation used to evaluate the embedding on
closed inputs: each "add" kernel appends a marker recording that it
ran (and, where relevant, the vector argument it received), so that
kernel invocation and argument order are observable. -/
def K0 : Kernels where
  demagExec := fun _ m _ => m
  addExchange := fun dst _ _ _ _ => dst ++ [⟨5, 5, 5⟩]
  addDMI := fun dst _ _ _ => dst ++ [⟨6, 6, 6⟩]
  addUniaxialAnisotropy := fun dst _ _ _ _ => dst ++ [⟨7, 7, 7⟩]
  addConst := fun dst a b c => dst ++ [⟨a, b, c⟩]
  madd2 := fun dst _ _ _ _ => dst
  llTorque := fun _ _ b _ => b
  addZhangLiTorque := fun dst _ j _ _ _ => dst ++ [j]

/-- `checkMesh` (engine.go:260–264): fatal if the mesh was never set
(its size is still the zero value). -/
def checkMesh (s : GlobalState) : Except String Unit :=
  if s.globalmesh.Size = (⟨0, 0, 0⟩ : IVec3) then .error "need to set mesh first"
  else .ok ()

/-- `Mesh()` (engine.go:54–57): check the mesh is set, then return it. -/
def MeshFn (s : GlobalState) : Except String Mesh := do
  checkMesh s
  pure s.globalmesh

/-- `sanitycheck` (engine.go:201–205): fatal, naming Msat, when the
saturation magnetization is zero. -/
def sanitycheck (s : GlobalState) : Except String Unit :=
  if s.msat = 0 then .error "Msat should be nonzero" else .ok ()

/-- `CellSize()` (engine.go:209–212): internal cell sizes with the
component order swapped (`{c[Z], c[Y], c[X]}`, where `X,Y,Z = 0,1,2`
are the user axis indices). -/
def CellSize (s : GlobalState) : Except String Vec3 := do
  let m ← MeshFn s
  let c := m.CellSize
  pure ⟨c.c2, c.c1, c.c0⟩

/-- `WorldSize()` (engine.go:214–217): internal world size with the
component order swapped. -/
def WorldSize (s : GlobalState) : Except String Vec3 := do
  let m ← MeshFn s
  let w := m.WorldSize
  pure ⟨w.c2, w.c1, w.c0⟩

/-- `GridSize()` (engine.go:219–222): internal cell counts with the
component order swapped. -/
def GridSize (s : GlobalState) : Except String IVec3 := do
  let m ← MeshFn s
  let n := m.Size
  pure ⟨n.c2, n.c1, n.c0⟩

/-- `initialize` (engine.go:76–199): allocates the torque buffer
(`cuda.NewSlice(3, Mesh())`, which goes through `Mesh()`/`checkMesh`),
initializes the magnetization and region storage, builds a fresh data
table and fresh parameter tables (`Ku1`, `ku1_red`, `AnisU` are
re-created by `scalarParam`/`vectorParam`). The quantity closures it
installs are embedded below as top-level functions of the state, so
only the state-resetting effects appear here; `itime`, `extFields`
and the user inputs are not touched. -/
def initEngine (s : GlobalState) : Except String GlobalState := do
  let m ← MeshFn s
  pure { s with
    torquebuffer := newBuffer m
    mbuf := newBuffer m
    exchangeMask := newBuffer m
    regionsBuf := List.replicate m.cells 0
    table := newTable
    ku1 := scalarParam
    ku1_red := scalarParam
    anisU := vectorParam }

/-- `SetMesh(Nx, Ny, Nz, cellSizeX, cellSizeY, cellSizeZ)`
(engine.go:230–237): fatal if `Nx <= 1`; otherwise store
`data.NewMesh(Nz, Ny, Nx, cellSizeZ, cellSizeY, cellSizeX)` (note the
reversed argument order: internal storage is `[Z,Y,X]`) and run
`initialize`. -/
def SetMesh (s : GlobalState) (Nx Ny Nz : ℤ)
    (cellSizeX cellSizeY cellSizeZ : ℚ) : Except String GlobalState :=
  if Nx ≤ 1 then
    .error ("mesh size X should be > 1, have: " ++ toString Nx)
  else
    initEngine { s with
      globalmesh := NewMesh Nz Ny Nx cellSizeZ cellSizeY cellSizeX }

/-- `Except.isOk` as a Bool, to state "no fatal error is raised". -/
def isOkE {α : Type} : Except String α → Bool
  | .ok _ => true
  | .error _ => false

/-- `Mu0`: the vacuum permeability constant used at the demag call
site (`Mu0*Msat()`). Its numeric value (4π×1e-7 in the repository's
constants, a rational stand-in here) is only ever forwarded to the
opaque demag kernel and is immaterial to every claim. -/
def Mu0 : ℚ := 4 * 3.14159265358979323846e-7

/-- `B_demag.set` — the setter closure installed at engine.go:97–104:
if demag is enabled, run `sanitycheck` and the demag convolution
kernel `demag_.Exec(b, M.buffer, nil, Mu0*Msat())`; otherwise zero the
destination. The `cansave` hint is received and not consulted. -/
def B_demag_set (K : Kernels) (s : GlobalState) (b : Buffer) (cansave : Bool) :
    Except String Buffer :=
  if s.enableDemag then do
    sanitycheck s
    pure (K.demagExec b s.mbuf (Mu0 * s.msat))
  else
    pure (cudaZero b)

/-- `B_exch.addTo` — the adder closure installed at engine.go:108–111:
`sanitycheck`, then `cuda.AddExchange(dst, M.buffer,
ExchangeMask.buffer, Aex(), Msat())`. The adder wrapper threads the
`cansave` hint past the closure (modelled from the spec §4.2: the hint
only governs optional caching, never the destination contents). -/
def B_exch_addTo (K : Kernels) (s : GlobalState) (dst : Buffer) (cansave : Bool) :
    Except String Buffer := do
  sanitycheck s
  pure (K.addExchange dst s.mbuf s.exchangeMask s.aex s.msat)

/-- `B_dmi.addTo` — the adder closure installed at engine.go:118–124:
read `d := DMI()`; only when `d != 0` run
`cuda.AddDMI(dst, M.buffer, d, Msat())`. -/
def B_dmi_addTo (K : Kernels) (s : GlobalState) (dst : Buffer) (cansave : Bool) :
    Except String Buffer :=
  let d := s.dmi
  if d ≠ 0 then
    pure (K.addDMI dst s.mbuf d s.msat)
  else
    pure dst

/-- `B_uni.addTo` — the adder closure installed at engine.go:133–136:
`cuda.AddUniaxialAnisotropy(dst, M.buffer, ku1_red.Gpu(), AnisU.Gpu(),
regions.Gpu())`, unconditionally (no sanity check in the source;
marked `TODO: conditionally` there). -/
def B_uni_addTo (K : Kernels) (s : GlobalState) (dst : Buffer) (cansave : Bool) :
    Except String Buffer :=
  pure (K.addUniaxialAnisotropy dst s.mbuf s.ku1_red s.anisU s.regionsBuf)

/-- The fold over dynamically registered external-field masks at
engine.go:143–145: `cuda.Madd2(dst, dst, f.mask, 1, f.mul())` for each
registered mask, in registration order. -/
def extFieldsFold (K : Kernels) (fields : List (Buffer × ℚ)) (dst : Buffer) : Buffer :=
  fields.foldl (fun acc f => K.madd2 acc acc f.1 1 f.2) dst

/-- `b_ext.addTo` — the adder closure installed at engine.go:140–146:
read `bext := B_ext()`, run `cuda.AddConst(dst, bext[2], bext[1],
bext[0])` (components reversed at the call site), then fold in the
registered external-field masks. -/
def b_ext_addTo (K : Kernels) (s : GlobalState) (dst : Buffer) (cansave : Bool) :
    Except String Buffer :=
  let bext := s.bExt
  pure (extFieldsFold K s.extFields (K.addConst dst bext.c2 bext.c1 bext.c0))

/-- `B_eff.set` — the setter closure installed at engine.go:150–156:
`B_demag.set(dst, cansave)`, then `B_exch`, `B_dmi`, `B_uni`, `b_ext`
`addTo`s in that order, all receiving the same `cansave`. -/
def B_eff_set (K : Kernels) (s : GlobalState) (dst : Buffer) (cansave : Bool) :
    Except String Buffer := do
  let b1 ← B_demag_set K s dst cansave
  let b2 ← B_exch_addTo K s b1 cansave
  let b3 ← B_dmi_addTo K s b2 cansave
  let b4 ← B_uni_addTo K s b3 cansave
  b_ext_addTo K s b4 cansave

/-- `LLTorque.set` — the setter closure installed at engine.go:160–163:
`B_eff.set(b, cansave)`, then `cuda.LLTorque(b, M.buffer, b, Alpha())`
transforming the field in place into the Landau-Lifshitz torque. -/
def LLTorque_set (K : Kernels) (s : GlobalState) (b : Buffer) (cansave : Bool) :
    Except String Buffer := do
  let b1 ← B_eff_set K s b cansave
  pure (K.llTorque b1 s.mbuf b1 s.alpha)

/-- `STTorque.addTo` — the adder closure installed at
engine.go:167–176: read `j := J()`; only when `j != [0,0,0]` scale by
the spin polarization with the component order reversed
(`jx := j[2]*p; jy := j[1]*p; jz := j[0]*p`) and run
`cuda.AddZhangLiTorque(dst, M.buffer, [jx,jy,jz], Msat(), nil,
Alpha(), Xi())`. No sanity check in the source. -/
def STTorque_addTo (K : Kernels) (s : GlobalState) (dst : Buffer) (cansave : Bool) :
    Except String Buffer :=
  let j := s.jvec
  if j ≠ (⟨0, 0, 0⟩ : Vec3) then
    let p := s.spinPol
    let jx := j.c2 * p
    let jy := j.c1 * p
    let jz := j.c0 * p
    pure (K.addZhangLiTorque dst s.mbuf ⟨jx, jy, jz⟩ s.msat s.alpha s.xi)
  else
    pure dst

/-- `Torque.set` — the setter closure installed at engine.go:179–182:
`LLTorque.set(b, cansave)` then `STTorque.addTo(b, cansave)`. -/
def Torque_set (K : Kernels) (s : GlobalState) (b : Buffer) (cansave : Bool) :
    Except String Buffer := do
  let b1 ← LLTorque_set K s b cansave
  STTorque_addTo K s b1 cansave

/-- `Ku1.SetRegion` with the `post_update` hook wired at
engine.go:129–131: write the raw `Ku1` table entry, then the hook
synchronously recomputes `ku1_red.SetRegion(region,
Ku1.GetRegion(region)/Msat())` for that region. (The hook mechanism —
fire on every region write — is modelled from the spec §3/§4.1; the
hook body is translated from the source.) -/
def Ku1SetRegion (s : GlobalState) (region : ℕ) (v : ℚ) : GlobalState :=
  let s1 := { s with ku1 := s.ku1.SetRegion region v }
  { s1 with
    ku1_red := s1.ku1_red.SetRegion region (s1.ku1.GetRegion region / s1.msat) }

/-- Assignment to the package-level `Msat` input (`Msat = Const(v)` in
a user script): a plain variable write; no hook runs (the source notes
`TODO: form msat` on `ku1_red`'s doc line). -/
def SetMsat (s : GlobalState) (v : ℚ) : GlobalState :=
  { s with msat := v }

/-- Event alphabet for the per-tick trace of the torque right-hand
side: each embedded sub-operation of `torqueFn` contributes its own
event, in execution order. -/
inductive Ev where
  | tickIncr : Ev
  | arm : Ev
  | notifyEv : String → Ev
  | torqueSet : Ev
  | touch : Ev
deriving DecidableEq, Repr

/-- `notifySave(q, cansave)` (called at engine.go:189–191; its body is
not under `src/`). Modelled from the spec: notifies a
logging-participating quantity whether this tick is save-worthy; pure
autosave bookkeeping external to the state tracked here, so it only
contributes its trace event. -/
def notifySave (s : GlobalState) (q : String) (cansave : Bool) : GlobalState × List Ev :=
  (s, [Ev.notifyEv q])

/-- `torqueFn` — the solver right-hand side built at engine.go:186–197:
increment `itime`, `Table.arm(cansave)`, `notifySave` for `M`, `FFTM`
and `ExchangeMask`, `Torque.set(torquebuffer, cansave)`, then
`Table.touch(cansave)`; returns the torque buffer. Alongside the state
it returns the trace of sub-operation events in execution order. -/
def torqueFn (K : Kernels) (s : GlobalState) (cansave : Bool) :
    Except String (GlobalState × List Ev) :=
  let s1 := { s with itime := s.itime + 1 }
  let s2 := { s1 with table := s1.table.arm cansave }
  let (s3, e1) := notifySave s2 "m" cansave
  let (s4, e2) := notifySave s3 "mFFT" cansave
  let (s5, e3) := notifySave s4 "exchangemask" cansave
  match Torque_set K s5 s5.torquebuffer cansave with
  | .error e => .error e
  | .ok b =>
    let s6 := { s5 with torquebuffer := b }
    let s7 := { s6 with table := s6.table.touch cansave }
    .ok (s7, [Ev.tickIncr, Ev.arm] ++ e1 ++ e2 ++ e3 ++ [Ev.torqueSet, Ev.touch])

/-- The spec's stated composition for the effective field (§4.3),
written from the spec's words for comparison with the source-derived
`B_eff_set`: the destination is set to the demagnetizing field and
then the exchange, DMI, anisotropy and external contributions are
folded in, in exactly that fixed list order. -/
def B_eff_specContribs (K : Kernels) (s : GlobalState) (cansave : Bool) :
    List (Buffer → Except String Buffer) :=
  [fun b => B_exch_addTo K s b cansave,
   fun b => B_dmi_addTo K s b cansave,
   fun b => B_uni_addTo K s b cansave,
   fun b => b_ext_addTo K s b cansave]

/-- The spec-order effective-field assembly: start from
`B_demag.set`, then apply the adders of `B_eff_specContribs` left to
right. -/
def B_eff_set_specOrder (K : Kernels) (s : GlobalState) (dst : Buffer) (cansave : Bool) :
    Except String Buffer :=
  (B_eff_specContribs K s cansave).foldl (fun acc f => acc >>= f)
    (B_demag_set K s dst cansave)

/-- A concrete engine state with the saturation magnetization set to
`8e5 A/m` (`Msat = Const(8e5)`) and everything else at its package
defaults; used to evaluate the embedding on closed inputs. -/
def s8 : GlobalState := { initState with msat := 800000 }

/-- A concrete engine state with a `4x4x1` user mesh (internal order
`[1,4,4]`), current density `J = (1,2,3)` and applied field
`B_ext = (1,2,3)`; used to evaluate the axis-order behaviour on
closed inputs. -/
def sC7 : GlobalState :=
  { initState with
    jvec := ⟨1, 2, 3⟩
    bExt := ⟨1, 2, 3⟩
    globalmesh := NewMesh 1 4 4 (1e-9) (1e-9) (1e-9) }

/-- Adding the all-zero buffer of matching shape leaves a buffer
elementwise unchanged (the zero-added reference of the spec's
zero-skip property). -/
theorem addBuffer_cudaZero (dst : Buffer) : addBuffer dst (cudaZero dst) = dst := by
  induction dst with
  | nil => rfl
  | cons a l ih =>
    show Vec3.mk (a.c0 + 0) (a.c1 + 0) (a.c2 + 0) :: addBuffer l (cudaZero l) = a :: l
    rw [add_zero, add_zero, add_zero, ih]

/-- Claim C1: for every setter quantity in the pipeline (`B_demag`,
`B_eff`, `LLTorque`, `Torque`), `set(dst, cansave)` produces the same
destination contents (and the same fatal-error outcome) whether
`cansave` is `true` or `false`: the hint is threaded through and never
consulted by any numeric branch. -/
theorem setters_cansave_independent (K : Kernels) (s : GlobalState) (dst : Buffer) :
    B_demag_set K s dst true = B_demag_set K s dst false ∧
    B_eff_set K s dst true = B_eff_set K s dst false ∧
    LLTorque_set K s dst true = LLTorque_set K s dst false ∧
    Torque_set K s dst true = Torque_set K s dst false :=
  ⟨rfl, rfl, rfl, rfl⟩

/-- Claim C6: `B_eff.set` equals the spec-order composition — the
destination is set to the demagnetizing field and the exchange, DMI,
anisotropy and external contributions are added in exactly that fixed
order — and the summation is deterministic: the result is a function
of the kernels, state and destination only, independent of the
`cansave` hint. -/
theorem b_eff_fixed_order (K : Kernels) (s : GlobalState) (dst : Buffer)
    (cansave cansave' : Bool) :
    B_eff_set K s dst cansave = B_eff_set_specOrder K s dst cansave ∧
    B_eff_set K s dst cansave = B_eff_set K s dst cansave' := by
  constructor
  · simp only [B_eff_set, B_eff_set_specOrder, B_eff_specContribs,
      List.foldl_cons, List.foldl_nil, bind_assoc]
  · cases cansave <;> cases cansave' <;> rfl

/-- Claim C10: `SetMesh` validates only the X cell count — the call
is fatal if and only if `Nx <= 1`; every `Ny`, `Nz` and every cell
size (zero and negative included) passes without a configuration
error. -/
theorem setMesh_validation_iff (s : GlobalState) (Nx Ny Nz : ℤ) (cx cy cz : ℚ) :
    isOkE (SetMesh s Nx Ny Nz cx cy cz) = true ↔ 1 < Nx := by
  unfold SetMesh
  by_cases h : Nx ≤ 1
  · rw [if_pos h]
    simp only [isOkE, Bool.false_eq_true, false_iff, not_lt]
    exact h
  · rw [if_neg h]
    have hx : ¬((⟨Nz, Ny, Nx⟩ : IVec3) = ⟨0, 0, 0⟩) := by
      intro hh
      injection hh with h1 h2 h3
      omega
    have h1 : 1 < Nx := by omega
    simp [initEngine, MeshFn, checkMesh, NewMesh, Mesh.Size, hx, Bind.bind,
      Except.bind, Pure.pure, Except.pure, isOkE, h1]

/-- Claim C4 (code evaluated at the failing input): a second call to
`SetMesh` with valid dimensions, after the mesh has already been set,
is accepted without any error — the source checks only `Nx <= 1` and
silently rebuilds the mesh and re-initializes. -/
theorem setMesh_twice_accepted :
    isOkE (do
      let s1 ← SetMesh initState 4 4 1 (1e-9) (1e-9) (1e-9)
      SetMesh s1 4 4 1 (1e-9) (1e-9) (1e-9)) = true := by
  rfl

/-- Claim C5: zero-skip equivalence — when the current density is
exactly `[0,0,0]`, `STTorque.addTo` leaves the destination unchanged,
and when the DMI coefficient is exactly `0`, `B_dmi.addTo` leaves the
destination unchanged; in both cases the result coincides with adding
an explicit zero buffer elementwise. -/
theorem zero_skip (K : Kernels) (s : GlobalState) (dst : Buffer) (cansave : Bool) :
    (s.jvec = ⟨0, 0, 0⟩ →
      STTorque_addTo K s dst cansave = .ok (addBuffer dst (cudaZero dst)) ∧
      STTorque_addTo K s dst cansave = .ok dst) ∧
    (s.dmi = 0 →
      B_dmi_addTo K s dst cansave = .ok (addBuffer dst (cudaZero dst)) ∧
      B_dmi_addTo K s dst cansave = .ok dst) := by
  constructor
  · intro h
    rw [STTorque_addTo]
    rw [if_neg (by simp [h])]
    rw [addBuffer_cudaZero]
    exact ⟨rfl, rfl⟩
  · intro h
    simp only [B_dmi_addTo]
    rw [if_neg (by simp [h])]
    rw [addBuffer_cudaZero]
    exact ⟨rfl, rfl⟩

/-- Witness for claim C5 at a concrete input: in the initial state the
current density and the DMI coefficient are both zero, and both adders
return the destination `[⟨1,2,3⟩]` untouched. -/
theorem zero_skip_witness :
    STTorque_addTo K0 initState [⟨1, 2, 3⟩] true = .ok [⟨1, 2, 3⟩] ∧
    B_dmi_addTo K0 initState [⟨1, 2, 3⟩] true = .ok [⟨1, 2, 3⟩] :=
  ⟨((zero_skip K0 initState [⟨1, 2, 3⟩] true).1 rfl).2,
   ((zero_skip K0 initState [⟨1, 2, 3⟩] true).2 rfl).2⟩

/-- Claim C2: after a successful `SetMesh(Nx, Ny, Nz, cx, cy, cz)`
with `Nx > 1`, `GridSize()` returns `[Nx, Ny, Nz]` in user order
(despite the internal `[Z,Y,X]` storage), `CellSize()` returns
`[cx, cy, cz]`, and `WorldSize()` equals `GridSize()` times
`CellSize()` component-wise. -/
theorem setMesh_accessors (s s' : GlobalState) (Nx Ny Nz : ℤ) (cx cy cz : ℚ)
    (hNx : 1 < Nx) (hset : SetMesh s Nx Ny Nz cx cy cz = .ok s') :
    GridSize s' = .ok ⟨Nx, Ny, Nz⟩ ∧
    CellSize s' = .ok ⟨cx, cy, cz⟩ ∧
    WorldSize s' = .ok ⟨(Nx : ℚ) * cx, (Ny : ℚ) * cy, (Nz : ℚ) * cz⟩ := by
  have hle : ¬(Nx ≤ 1) := by omega
  have hx : ¬((⟨Nz, Ny, Nx⟩ : IVec3) = ⟨0, 0, 0⟩) := by
    intro hh
    injection hh with a b c
    omega
  rw [SetMesh, if_neg hle] at hset
  simp only [initEngine, MeshFn, checkMesh, NewMesh, Mesh.Size, hx, if_false,
    Bind.bind, Except.bind, Pure.pure, Except.pure, Except.ok.injEq] at hset
  subst hset
  refine ⟨?_, ?_, ?_⟩ <;>
    simp [GridSize, CellSize, WorldSize, MeshFn, checkMesh, NewMesh, Mesh.Size,
      Mesh.CellSize, Mesh.WorldSize, hx, Bind.bind, Except.bind, Pure.pure,
      Except.pure]

/-- Witness for claim C2 at a concrete input: `SetMesh(4, 4, 1,
1e-9, 1e-9, 1e-9)` from the initial state succeeds and `GridSize()`
then reads `[4, 4, 1]`. -/
theorem setMesh_accessors_witness :
    ∃ s', SetMesh initState 4 4 1 (1e-9) (1e-9) (1e-9) = .ok s' ∧
      GridSize s' = .ok ⟨4, 4, 1⟩ :=
  ⟨_, rfl, (setMesh_accessors initState _ 4 4 1 (1e-9) (1e-9) (1e-9)
    (by norm_num) rfl).1⟩

/-- Claim C3 refuted at a concrete input: with `Msat() = 0` and a
nonzero current density, `STTorque.addTo` raises no fatal error and
invokes the Zhang-Li kernel (the kernel's marker appears in the
destination), and `B_uni.addTo` likewise invokes the anisotropy
kernel with no check — contradicting the claim that every one of the
four Msat-dependent quantities sanity-checks before its kernel. -/
theorem msat_check_missing_counterexample :
    ({ initState with jvec := ⟨1, 0, 0⟩ } : GlobalState).msat = 0 ∧
    ({ initState with jvec := ⟨1, 0, 0⟩ } : GlobalState).jvec ≠ ⟨0, 0, 0⟩ ∧
    STTorque_addTo K0 { initState with jvec := ⟨1, 0, 0⟩ } [] true = .ok [⟨0, 0, 1⟩] ∧
    B_uni_addTo K0 initState [] true = .ok [⟨7, 7, 7⟩] := by
  refine ⟨rfl, by decide, ?_, rfl⟩
  simp only [STTorque_addTo]
  rw [if_pos (by decide :
    ({ initState with jvec := ⟨1, 0, 0⟩ } : GlobalState).jvec ≠ ⟨0, 0, 0⟩)]
  norm_num [K0, initState]
  rfl

/-- Claim C3 as amended: when `Msat() = 0`, `B_demag.set` (with demag
enabled) and `B_exch.addTo` raise the fatal sanity-check error naming
Msat before their kernels run, but `B_uni.addTo` and `STTorque.addTo`
(with nonzero current) perform no such check and invoke their kernels
regardless. -/
theorem msat_check_amended (K : Kernels) (s : GlobalState) (dst : Buffer)
    (cansave : Bool) (h : s.msat = 0) :
    (s.enableDemag = true →
      B_demag_set K s dst cansave = .error "Msat should be nonzero") ∧
    B_exch_addTo K s dst cansave = .error "Msat should be nonzero" ∧
    isOkE (B_uni_addTo K s dst cansave) = true ∧
    (s.jvec ≠ ⟨0, 0, 0⟩ → isOkE (STTorque_addTo K s dst cansave) = true) := by
  refine ⟨?_, ?_, rfl, ?_⟩
  · intro hd
    rw [B_demag_set, if_pos hd, sanitycheck, if_pos h]
    rfl
  · rw [B_exch_addTo, sanitycheck, if_pos h]
    rfl
  · intro hj
    rw [STTorque_addTo, if_pos hj]
    rfl

/-- Witness for the amended claim C3 at a concrete input (`Msat = 0`,
`J = (1,0,0)`): the demag and exchange quantities fail fatally naming
Msat; the anisotropy and spin-transfer-torque quantities succeed. -/
theorem msat_check_amended_witness :
    B_demag_set K0 { initState with jvec := ⟨1, 0, 0⟩ } [] true =
      .error "Msat should be nonzero" ∧
    B_exch_addTo K0 { initState with jvec := ⟨1, 0, 0⟩ } [] true =
      .error "Msat should be nonzero" ∧
    isOkE (B_uni_addTo K0 { initState with jvec := ⟨1, 0, 0⟩ } [] true) = true ∧
    isOkE (STTorque_addTo K0 { initState with jvec := ⟨1, 0, 0⟩ } [] true) = true :=
  ⟨(msat_check_amended K0 _ [] true rfl).1 rfl,
   (msat_check_amended K0 _ [] true rfl).2.1,
   (msat_check_amended K0 _ [] true rfl).2.2.1,
   (msat_check_amended K0 _ [] true rfl).2.2.2 (by decide)⟩

/-- Claim C7 refuted at a concrete input: with `J = (1, 2, 3)` and
`B_ext = (1, 2, 3)` (spin polarization 1), the vector handed to the
Zhang-Li kernel by `STTorque.addTo` is `(3, 2, 1)` and the constants
handed to the field kernel by `b_ext.addTo` are `(3, 2, 1)` — both
reversed from the 3-vector inputs, in operations that are not the
public mesh accessors. -/
theorem axis_reversal_counterexample :
    sC7.jvec = ⟨1, 2, 3⟩ ∧ sC7.bExt = ⟨1, 2, 3⟩ ∧
    STTorque_addTo K0 sC7 [] true = .ok [⟨3, 2, 1⟩] ∧
    b_ext_addTo K0 sC7 [] true = .ok [⟨3, 2, 1⟩] ∧
    ((⟨3, 2, 1⟩ : Vec3) ≠ ⟨1, 2, 3⟩) := by
  refine ⟨rfl, rfl, ?_, rfl, by decide⟩
  simp only [STTorque_addTo]
  rw [if_pos (by decide : sC7.jvec ≠ ⟨0, 0, 0⟩)]
  norm_num [K0, sC7, initState]
  rfl

/-- Claim C7 as amended: the `[X,Y,Z]`/`[Z,Y,X]` component reversal
occurs at the public accessor boundary (`GridSize`/`CellSize`/
`WorldSize` present the internal triples reversed) and additionally
in two pipeline operations: `STTorque.addTo` hands the Zhang-Li
kernel the polarization-scaled current density with components
reversed, and `b_ext.addTo` hands the constant-field kernel the
applied-field components reversed. -/
theorem axis_reversal_amended (K : Kernels) (s : GlobalState) (dst : Buffer)
    (cansave : Bool) (m : Mesh) (hm : MeshFn s = .ok m)
    (hj : s.jvec ≠ ⟨0, 0, 0⟩) :
    GridSize s = .ok (revI3 m.Size) ∧
    CellSize s = .ok (rev3 m.CellSize) ∧
    WorldSize s = .ok (rev3 m.WorldSize) ∧
    STTorque_addTo K s dst cansave =
      .ok (K.addZhangLiTorque dst s.mbuf (rev3 (scale3 s.spinPol s.jvec))
        s.msat s.alpha s.xi) ∧
    b_ext_addTo K s dst cansave =
      .ok (extFieldsFold K s.extFields
        (K.addConst dst (rev3 s.bExt).c0 (rev3 s.bExt).c1 (rev3 s.bExt).c2)) := by
  refine ⟨?_, ?_, ?_, ?_, rfl⟩
  · rw [GridSize, hm]
    rfl
  · rw [CellSize, hm]
    rfl
  · rw [WorldSize, hm]
    rfl
  · rw [STTorque_addTo, if_pos hj]
    rfl

/-- Witness for the amended claim C7 at a concrete input: on a
`4x4x1` user mesh (internal `[1,4,4]`) the grid accessor reads
`[4,4,1]`, and `STTorque.addTo` with `J = (1,2,3)`, polarization 1,
hands the kernel the reversed scaled vector. -/
theorem axis_reversal_amended_witness :
    GridSize sC7 = .ok ⟨4, 4, 1⟩ ∧
    STTorque_addTo K0 sC7 [] true = .ok [rev3 (scale3 1 ⟨1, 2, 3⟩)] :=
  ⟨(axis_reversal_amended K0 sC7 [] true (NewMesh 1 4 4 (1e-9) (1e-9) (1e-9))
      rfl (by decide)).1,
   (axis_reversal_amended K0 sC7 [] true (NewMesh 1 4 4 (1e-9) (1e-9) (1e-9))
      rfl (by decide)).2.2.2.1⟩

/-- Reading back the region just written: `List.getD` after
`List.set` at an in-range index returns the written value. -/
theorem getD_set_self (l : List ℚ) (r : ℕ) (x : ℚ) (h : r < l.length) :
    (l.set r x).getD r 0 = x := by
  induction l generalizing r with
  | nil => exact absurd h (Nat.not_lt_zero r)
  | cons a t ih =>
    cases r with
    | zero => rfl
    | succ n =>
      have h' : n < t.length := by simpa using h
      exact ih n h'

/-- Writing one region leaves every other region's stored value
untouched: `List.getD` after `List.set` at a different index. -/
theorem getD_set_ne (l : List ℚ) (i j : ℕ) (x : ℚ) (h : i ≠ j) :
    (l.set i x).getD j 0 = l.getD j 0 := by
  induction l generalizing i j with
  | nil => rfl
  | cons a t ih =>
    cases i with
    | zero =>
      cases j with
      | zero => exact absurd rfl h
      | succ m => rfl
    | succ n =>
      cases j with
      | zero => rfl
      | succ m => exact ih n m fun hh => h (by rw [hh])

/-- Claim C8 refuted at a concrete input: set `Ku1` of region 0 to
`1e3 J/m³` with `Msat = 8e5 A/m` (so `ku1_red` reads `1.25e-3 T`),
then change `Msat` to `4e5 A/m`. The claim requires `ku1_red` to be
recomputed to `Ku1/Msat = 2.5e-3` before the next read, but it still
reads the stale `1.25e-3`: only `Ku1` writes fire the update hook. -/
theorem ku1_red_msat_stale :
    ScalarParam.GetRegion (SetMsat (Ku1SetRegion s8 0 1000) 400000).ku1_red 0 =
      1.25e-3 ∧
    ScalarParam.GetRegion (SetMsat (Ku1SetRegion s8 0 1000) 400000).ku1 0 /
      (SetMsat (Ku1SetRegion s8 0 1000) 400000).msat = 2.5e-3 ∧
    ((1.25e-3 : ℚ) ≠ 2.5e-3) := by
  have h1 : 0 < s8.ku1.length := by
    norm_num [s8, initState, scalarParam, maxNRegions]
  have h2 : 0 < s8.ku1_red.length := by
    norm_num [s8, initState, scalarParam, maxNRegions]
  refine ⟨?_, ?_, by norm_num⟩
  · simp only [Ku1SetRegion, SetMsat, ScalarParam.GetRegion, ScalarParam.SetRegion]
    rw [getD_set_self _ _ _ h2, getD_set_self _ _ _ h1]
    norm_num [s8, initState]
  · simp only [Ku1SetRegion, SetMsat, ScalarParam.GetRegion, ScalarParam.SetRegion]
    rw [getD_set_self _ _ _ h1]
    norm_num [s8, initState]

/-- Claim C8 as amended: `ku1_red` is recomputed synchronously as
`Ku1/Msat` for a region whenever `Ku1` is written for that region
(writes to `Msat` do not trigger recomputation — the source marks
this `TODO`); with `Msat` already `8e5 A/m` when `Ku1` is written,
the concrete readings `1.25e-3` and `2.5e-3 T` hold. -/
theorem ku1_red_update_amended (s : GlobalState) (r : ℕ) (v w : ℚ)
    (h1 : r < s.ku1.length) (h2 : r < s.ku1_red.length) :
    ScalarParam.GetRegion (Ku1SetRegion s r v).ku1_red r = v / s.msat ∧
    (SetMsat s w).ku1_red = s.ku1_red ∧
    (SetMsat s w).ku1 = s.ku1 := by
  refine ⟨?_, rfl, rfl⟩
  show ((s.ku1_red).set r (((s.ku1.set r v).getD r 0) / s.msat)).getD r 0 = v / s.msat
  rw [getD_set_self _ _ _ h2, getD_set_self _ _ _ h1]

/-- Witness for the amended claim C8 at the spec's concrete inputs:
`Ku1 = 1e3` and `2e3 J/m³` in regions 0 and 1 with `Msat = 8e5 A/m`
yield `ku1_red` readings `2.5e-3` and `1.25e-3 T`. -/
theorem ku1_red_update_amended_witness :
    ScalarParam.GetRegion (Ku1SetRegion (Ku1SetRegion s8 0 1000) 1 2000).ku1_red 1 =
      2000 / (Ku1SetRegion s8 0 1000).msat ∧
    ((2000 : ℚ) / 800000 = 2.5e-3) ∧
    ScalarParam.GetRegion (Ku1SetRegion (Ku1SetRegion s8 0 1000) 1 2000).ku1_red 0 =
      1.25e-3 := by
  have ha : 0 < s8.ku1.length := by
    norm_num [s8, initState, scalarParam, maxNRegions]
  have hb : 0 < s8.ku1_red.length := by
    norm_num [s8, initState, scalarParam, maxNRegions]
  refine ⟨(ku1_red_update_amended (Ku1SetRegion s8 0 1000) 1 2000 0 ?_ ?_).1,
    by norm_num, ?_⟩
  · simp only [Ku1SetRegion, ScalarParam.SetRegion]
    rw [List.length_set]
    norm_num [s8, initState, scalarParam, maxNRegions]
  · simp only [Ku1SetRegion, ScalarParam.SetRegion]
    rw [List.length_set]
    norm_num [s8, initState, scalarParam, maxNRegions]
  · simp only [Ku1SetRegion, ScalarParam.GetRegion, ScalarParam.SetRegion]
    rw [getD_set_ne _ 1 0 _ (by norm_num), getD_set_self _ _ _ hb,
      getD_set_self _ _ _ ha]
    norm_num [s8, initState]

/-- Claim C9: every successful invocation of the torque right-hand
side performs, in order: increment the monotonic tick counter, arm
the sampling table with the `cansave` flag, notify the
logging-participating quantities, compute `Torque.set` into the
scratch buffer, and only then sample (touch) the table — so arming
precedes the pipeline computation and sampling follows it within the
same tick, and the tick counter strictly increases across
invocations. -/
theorem torqueFn_trace (K : Kernels) (s : GlobalState) (cansave : Bool)
    (s' : GlobalState) (tr : List Ev)
    (h : torqueFn K s cansave = .ok (s', tr)) :
    tr = [Ev.tickIncr, Ev.arm, Ev.notifyEv "m", Ev.notifyEv "mFFT",
          Ev.notifyEv "exchangemask", Ev.torqueSet, Ev.touch] ∧
    s'.itime = s.itime + 1 ∧
    s'.table = DataTable.touch (DataTable.arm s.table cansave) cansave := by
  rw [torqueFn] at h
  simp only [notifySave] at h
  split at h
  · exact Except.noConfusion h
  · injection h with h'
    injection h' with hs htr
    subst hs
    subst htr
    exact ⟨rfl, rfl, rfl⟩

/-- Witness for claim C9 at a concrete input: with `Msat = 8e5` the
pipeline succeeds and one invocation advances the tick counter by
exactly one. -/
theorem torqueFn_trace_witness :
    ∃ p, torqueFn K0 s8 true = .ok p ∧ p.1.itime = s8.itime + 1 :=
  ⟨_, rfl, (torqueFn_trace K0 s8 true _ _ rfl).2.1⟩

end Engine
